import Mathlib

/-!
Shallow embedding of the booking/session core of the dashboard modules
(src/unnamed/part_000 and src/src/pages/AdminDashboard.tsx).

Timestamps are modelled as integer milliseconds, ids as naturals, and the
Supabase tables as in-memory lists inside a `Store`.  Each embedded
operation mirrors the corresponding source function: the supabase
`update ... eq(id)` call becomes a map over the rows with matching id,
`insert` becomes an append, and the webhook `fetch` wrapped in its inner
try/catch becomes a boolean outcome parameter that can only influence the
logged-error flag of the result.
-/

/-- Booking status union type from the Booking interface. -/
inductive BookingStatus where
  | pending
  | code_sent
  | confirmed
  | rejected
  | cancelled
deriving DecidableEq, Repr

/-- Session status values used by the user_sessions rows. -/
inductive SessionStatus where
  | active
  | completed
deriving DecidableEq, Repr

/-- The Booking interface of the dashboard modules. -/
structure Booking where
  id : Nat
  workspace_type : String
  date : String
  time_slot : String
  duration : String
  customer_name : String
  customer_email : String
  customer_phone : String
  customer_whatsapp : String
  total_price : Int
  status : BookingStatus
  confirmation_code : Option String
  created_at : Int
  updated_at : Int
  user_id : Option Nat
  desk_number : Option Nat
deriving DecidableEq, Repr

/-- A user_sessions row as read and written by the dashboard. -/
structure Session where
  id : Nat
  user_id : Nat
  booking_id : Option Nat
  session_type : String
  start_time : Int
  end_time : Option Int
  duration_minutes : Option Int
  status : SessionStatus
  started_by : Option Nat
  ended_by : Option Nat
  confirmation_required : Bool
deriving DecidableEq, Repr

/-- The authoritative store: the bookings and user_sessions tables. -/
structure Store where
  bookings : List Booking
  sessions : List Session
deriving DecidableEq, Repr

/-- Outcome of updateBookingStatus: the store after the call, whether the
call reached its success toast, and whether a webhook failure was logged
by the inner catch. -/
structure OpOutcome where
  store : Store
  success : Bool
  webhookErrorLogged : Bool
deriving DecidableEq, Repr

/-- The updateData patch built by updateBookingStatus: status and
updated_at always, confirmation_code only when a (truthy, i.e. non-empty)
code argument was supplied. -/
def bookingPatch (newStatus : BookingStatus) (confirmationCode : Option String)
    (now : Int) (b : Booking) : Booking :=
  { b with
    status := newStatus
    updated_at := now
    confirmation_code :=
      match confirmationCode with
      | some c => if c = "" then b.confirmation_code else some c
      | none => b.confirmation_code }

/-- updateBookingStatus (src/unnamed/part_000 lines 282-338, identically in
AdminDashboard.tsx lines 200-256): builds updateData and applies
supabase.from(bookings).update(updateData).eq(id, bookingId) — an
unconditional update of every row with the given id — then attempts the
webhook (only when the booking is present in the component's local
`bookings` view) inside a try/catch that only logs failures. -/
def updateBookingStatus (st : Store) (view : List Booking) (bookingId : Nat)
    (newStatus : BookingStatus) (confirmationCode : Option String)
    (now : Int) (webhookOk : Bool) : OpOutcome :=
  let bookings' := st.bookings.map fun b =>
    if b.id == bookingId then bookingPatch newStatus confirmationCode now b else b
  let webhookAttempted := (view.find? fun b => b.id == bookingId).isSome
  { store := { st with bookings := bookings' }
    success := true
    webhookErrorLogged := webhookAttempted && !webhookOk }

/-- Lookup of a booking row by id. -/
def findBooking (st : Store) (bookingId : Nat) : Option Booking :=
  st.bookings.find? fun b => b.id == bookingId

/-- Modelled from the spec (§4.1): the allowed transition set of the
BookingStateMachine.  The source has no such validation; this definition
exists only to state the claims that compare the code against it. -/
def allowedTransition : BookingStatus → BookingStatus → Bool
  | .pending, .code_sent => true
  | .pending, .confirmed => true
  | .pending, .rejected => true
  | .code_sent, .confirmed => true
  | .code_sent, .rejected => true
  | .pending, .cancelled => true
  | .code_sent, .cancelled => true
  | .confirmed, .cancelled => true
  | _, _ => false

/-- Result of a startBookingSession call (part_000 lines 340-388):
started (success toast), alreadyActive (the existing-active-session
early return), bookingNotFound (the thrown Booking-not-found error),
storeError (a thrown supabase error other than the swallowed PGRST116). -/
inductive StartResult where
  | started
  | alreadyActive
  | bookingNotFound
  | storeError
deriving DecidableEq, Repr

/-- The existing-session query of startBookingSession:
select id,status from user_sessions where booking_id = bookingId. -/
def sessionLookup (st : Store) (bookingId : Nat) : List Session :=
  st.sessions.filter fun s => s.booking_id == some bookingId

/-- Whether control in startBookingSession reaches the insert.  The query
uses maybeSingle(), whose zero-row case yields null data and whose
multiple-row error (PGRST116) is explicitly swallowed by the code, also
yielding null data; only a single existing row with status=active causes
the early alreadyActive return. -/
def startProceeds (st : Store) (bookingId : Nat) : Bool :=
  match sessionLookup st bookingId with
  | [s] => !(s.status == .active)
  | _ => true

/-- The row inserted by startBookingSession: user_id falls back from the
booking's (possibly null) user_id to the acting operator's id via the
JS expression booking.user_id || user?.id; start_time is the insertion
time (a column default, not set by the code). -/
def newSessionRecord (booking : Booking) (bookingId adminId sessionId : Nat)
    (now : Int) : Session :=
  { id := sessionId
    user_id := booking.user_id.getD adminId
    booking_id := some bookingId
    session_type := "booking"
    start_time := now
    end_time := none
    duration_minutes := none
    status := .active
    started_by := some adminId
    ended_by := none
    confirmation_required := false }

/-- startBookingSession (part_000 lines 340-388): look the booking up in
the component's local bookings view, run the existing-session check, then
insert a fresh active session.  The check and the insert are two separate
store operations; this definition is their sequential (non-interleaved)
composition. -/
def startBookingSession (st : Store) (view : List Booking)
    (bookingId adminId sessionId : Nat) (now : Int) : Store × StartResult :=
  match view.find? (fun b => b.id == bookingId) with
  | none => (st, .bookingNotFound)
  | some booking =>
    if startProceeds st bookingId then
      ({ st with sessions :=
          st.sessions ++ [newSessionRecord booking bookingId adminId sessionId now] },
        .started)
    else
      (st, .alreadyActive)

/-- The racing execution of two startBookingSession calls for the same
booking in which both existence checks read the store before either
insert commits — a legitimate interleaving, since the check and the
insert are separate awaited store round-trips in the source. -/
def startRace (st : Store) (view : List Booking) (bookingId : Nat)
    (admin1 admin2 sid1 sid2 : Nat) (now1 now2 : Int) :
    Store × StartResult × StartResult :=
  match view.find? (fun b => b.id == bookingId) with
  | none => (st, .bookingNotFound, .bookingNotFound)
  | some booking =>
    let ok1 := startProceeds st bookingId
    let ok2 := startProceeds st bookingId
    let st1 := if ok1 then
        { st with sessions :=
            st.sessions ++ [newSessionRecord booking bookingId admin1 sid1 now1] }
      else st
    let st2 := if ok2 then
        { st1 with sessions :=
            st1.sessions ++ [newSessionRecord booking bookingId admin2 sid2 now2] }
      else st1
    (st2, (if ok1 then .started else .alreadyActive),
      (if ok2 then .started else .alreadyActive))

/-- Number of active sessions recorded for a booking. -/
def countActiveSessions (st : Store) (bookingId : Nat) : Nat :=
  (st.sessions.filter fun s =>
    s.booking_id == some bookingId && s.status == .active).length

/-- Math.ceil((endTime - startTime) / (1000 * 60)) over integer
milliseconds: the ceiling of the elapsed time in minutes, written with
Euclidean division (for a positive divisor, ceil x/d = -((-x) div d)). -/
def durationMinutesCalc (startTime endTime : Int) : Int :=
  -((-(endTime - startTime)) / 60000)

/-- Result of an endBookingSession call: ended carries the computed
duration_minutes; lookupFailed is the thrown error of the initial
single() select when no unique row with the id exists. -/
inductive EndResult where
  | ended (durationMinutes : Int)
  | lookupFailed
deriving DecidableEq, Repr

/-- Outcome of endBookingSession. -/
structure EndOutcome where
  store : Store
  result : EndResult
  webhookErrorLogged : Bool
deriving DecidableEq, Repr

/-- The update applied to the session row by endBookingSession. -/
def endPatch (adminId : Nat) (endTime : Int) (s : Session) : Session :=
  { s with
    end_time := some endTime
    duration_minutes := some (durationMinutesCalc s.start_time endTime)
    status := .completed
    ended_by := some adminId
    confirmation_required := true }

/-- endBookingSession (part_000 lines 390-482): select the session row by
id with single() — no status filter — compute the duration from the
current time, then update the row by id — no status compare-and-swap —
and finally attempt the webhook inside a try/catch that only logs
failures. -/
def endBookingSession (st : Store) (sessionId adminId : Nat) (endTime : Int)
    (webhookOk : Bool) : EndOutcome :=
  match st.sessions.filter (fun s => s.id == sessionId) with
  | [s] =>
    let sessions' := st.sessions.map fun x =>
      if x.id == sessionId then endPatch adminId endTime x else x
    { store := { st with sessions := sessions' }
      result := .ended (durationMinutesCalc s.start_time endTime)
      webhookErrorLogged := !webhookOk }
  | _ => { store := st, result := .lookupFailed, webhookErrorLogged := false }

/-- totalRevenue as computed by fetchDashboardData in src/unnamed/part_000
(lines 163-166): reduce((sum, b) => sum + (b.total_price || 0), 0) over
ALL fetched bookings, with no status filter. -/
def totalRevenueUnnamedVariant (bookingsData : List Booking) : Int :=
  bookingsData.foldl (fun sum b => sum + b.total_price) 0

/-- totalRevenue as computed by fetchDashboardData in
src/src/pages/AdminDashboard.tsx (lines 124-129): filter to
status=confirmed, then reduce((sum, b) => sum + b.total_price, 0). -/
def totalRevenueDashboard (allBookings : List Booking) : Int :=
  ((allBookings.filter fun b => b.status == .confirmed).foldl
    (fun sum b => sum + b.total_price) 0)

/-- pendingBookings count of fetchDashboardData (both variants). -/
def pendingBookingsCount (bs : List Booking) : Nat :=
  (bs.filter fun b => b.status == .pending).length

/-- confirmedBookings count of fetchDashboardData (both variants). -/
def confirmedBookingsCount (bs : List Booking) : Nat :=
  (bs.filter fun b => b.status == .confirmed).length

/-- Modelled from the spec (§4.5): totalRevenue = sum of total_price over
bookings with status=confirmed, the comparand for the aggregation claims. -/
def specConfirmedRevenue (bs : List Booking) : Int :=
  ((bs.filter fun b => b.status == .confirmed).map fun b => b.total_price).sum

/-- Sum of total_price over the non-confirmed bookings of a snapshot. -/
def nonConfirmedRevenue (bs : List Booking) : Int :=
  ((bs.filter fun b => !(b.status == .confirmed)).map fun b => b.total_price).sum

/-- A concrete booking row used by the counterexamples and witnesses. -/
def sampleBooking (i : Nat) (status : BookingStatus) (price : Int) : Booking :=
  { id := i
    workspace_type := "desk"
    date := "2025-01-01"
    time_slot := "9:00 AM"
    duration := "1 hour"
    customer_name := "A"
    customer_email := "a@b.c"
    customer_phone := "1"
    customer_whatsapp := "1"
    total_price := price
    status := status
    confirmation_code := none
    created_at := 0
    updated_at := 0
    user_id := some 7
    desk_number := none }

/-- The aggregation example of §8: confirmed 100, 200, 300 and pending 50. -/
def exampleBookings : List Booking :=
  [sampleBooking 1 .confirmed 100, sampleBooking 2 .confirmed 200,
   sampleBooking 3 .confirmed 300, sampleBooking 4 .pending 50]

/-- A concrete active session for booking 1. -/
def sampleActiveSession : Session :=
  { id := 11
    user_id := 7
    booking_id := some 1
    session_type := "booking"
    start_time := 1000
    end_time := none
    duration_minutes := none
    status := .active
    started_by := some 9
    ended_by := none
    confirmation_required := false }

/-- A concrete already-completed session for booking 1. -/
def sampleCompletedSession : Session :=
  { sampleActiveSession with
    id := 12
    status := .completed
    end_time := some 61000
    duration_minutes := some 1
    ended_by := some 9
    confirmation_required := true }

/-- C1 as stated: whenever the stored status differs from the status the
caller read (the caller's expectedCurrentStatus), updateBookingStatus
fails — no success — and leaves the store unchanged. -/
def claimConflictCheck : Prop :=
  ∀ (st : Store) (view : List Booking) (bookingId : Nat)
    (expected target : BookingStatus) (code : Option String) (now : Int)
    (webhookOk : Bool) (b : Booking),
    findBooking st bookingId = some b →
    b.status ≠ expected →
    (updateBookingStatus st view bookingId target code now webhookOk).store = st ∧
    (updateBookingStatus st view bookingId target code now webhookOk).success = false

/-- C2 as stated: whenever (storedStatus → targetStatus) is outside the
allowed set of §4.1, updateBookingStatus fails and leaves the store
unchanged. -/
def claimTransitionValidated : Prop :=
  ∀ (st : Store) (view : List Booking) (bookingId : Nat)
    (target : BookingStatus) (code : Option String) (now : Int)
    (webhookOk : Bool) (b : Booking),
    findBooking st bookingId = some b →
    allowedTransition b.status target = false →
    (updateBookingStatus st view bookingId target code now webhookOk).store = st ∧
    (updateBookingStatus st view bookingId target code now webhookOk).success = false

/-- C3 as stated: of two racing start calls on a booking with no session
yet, exactly one succeeds and the other fails with AlreadyActive. -/
def claimAtomicStart : Prop :=
  ∀ (st : Store) (view : List Booking) (bookingId a1 a2 s1 s2 : Nat)
    (n1 n2 : Int),
    (view.find? fun b => b.id == bookingId).isSome = true →
    sessionLookup st bookingId = [] →
    ((startRace st view bookingId a1 a2 s1 s2 n1 n2).2.1 = .started ∧
     (startRace st view bookingId a1 a2 s1 s2 n1 n2).2.2 = .alreadyActive) ∨
    ((startRace st view bookingId a1 a2 s1 s2 n1 n2).2.1 = .alreadyActive ∧
     (startRace st view bookingId a1 a2 s1 s2 n1 n2).2.2 = .started)

/-- C4 as stated (immutability half, at the level of the update patch):
once confirmation_code is set, no later updateBookingStatus patch ever
changes it. -/
def claimCodeImmutable : Prop :=
  ∀ (newStatus : BookingStatus) (code : Option String) (now : Int)
    (b : Booking),
    b.confirmation_code.isSome = true →
    (bookingPatch newStatus code now b).confirmation_code = b.confirmation_code

/-- C5 as stated: ending a session that is not currently active fails and
does not modify the store. -/
def claimEndEffectiveOnce : Prop :=
  ∀ (st : Store) (sessionId adminId : Nat) (endTime : Int) (webhookOk : Bool)
    (s : Session),
    st.sessions.filter (fun x => x.id == sessionId) = [s] →
    s.status ≠ .active →
    (endBookingSession st sessionId adminId endTime webhookOk).store = st ∧
    (endBookingSession st sessionId adminId endTime webhookOk).result = .lookupFailed

/-- C6 as stated (startable-status half): starting a session for a booking
that exists but is not in status confirmed fails with NotFound and
creates no session record. -/
def claimStartRequiresConfirmed : Prop :=
  ∀ (st : Store) (view : List Booking) (bookingId adminId sessionId : Nat)
    (now : Int) (b : Booking),
    view.find? (fun x => x.id == bookingId) = some b →
    b.status ≠ .confirmed →
    startBookingSession st view bookingId adminId sessionId now =
      (st, .bookingNotFound)

/-- C8 as stated: the aggregated totalRevenue (as computed by the
src/unnamed/part_000 variant of fetchDashboardData) equals the sum of
total_price over exactly the confirmed bookings. -/
def claimRevenueConfirmedOnly : Prop :=
  ∀ bs : List Booking, totalRevenueUnnamedVariant bs = specConfirmedRevenue bs

/-- A concrete booking whose user reference is null. -/
def bookingNoUser : Booking :=
  { sampleBooking 1 .confirmed 100 with user_id := none }

/-- Folding price accumulation from any base equals the base plus the sum
of the mapped prices. -/
theorem foldl_price_eq_sum (l : List Booking) (a : Int) :
    l.foldl (fun sum b => sum + b.total_price) a =
      a + (l.map fun b => b.total_price).sum := by
  induction l generalizing a with
  | nil => simp
  | cons x xs ih =>
    simp only [List.foldl_cons, List.map_cons, List.sum_cons, ih]
    ring

/-- The total price sum of a snapshot splits into the confirmed part and
the non-confirmed part. -/
theorem price_sum_split (l : List Booking) :
    (l.map fun b => b.total_price).sum =
      specConfirmedRevenue l + nonConfirmedRevenue l := by
  induction l with
  | nil => simp [specConfirmedRevenue, nonConfirmedRevenue]
  | cons x xs ih =>
    cases hx : (x.status == BookingStatus.confirmed) with
    | true =>
      simp [specConfirmedRevenue, nonConfirmedRevenue, List.filter_cons, hx] at ih ⊢
      omega
    | false =>
      simp [specConfirmedRevenue, nonConfirmedRevenue, List.filter_cons, hx] at ih ⊢
      omega

/-- Updating the rows of matching id with an id-preserving patch turns a
successful find? into a find? of the patched row. -/
theorem find_map_patch (l : List Booking) (bookingId : Nat)
    (g : Booking → Booking) (hg : ∀ b, (g b).id = b.id) (b : Booking)
    (h : l.find? (fun x => x.id == bookingId) = some b) :
    (l.map fun x => if x.id == bookingId then g x else x).find?
      (fun x => x.id == bookingId) = some (g b) := by
  induction l with
  | nil => simp at h
  | cons x xs ih =>
    by_cases hx : (x.id == bookingId) = true
    · rw [List.find?_cons_of_pos (p := fun (y : Booking) => y.id == bookingId) _ hx] at h
      obtain rfl : x = b := by injection h
      have hgx : ((g x).id == bookingId) = true := by rw [hg]; exact hx
      simp only [List.map_cons, hx, if_true]
      rw [List.find?_cons_of_pos (p := fun (y : Booking) => y.id == bookingId) _ hgx]
    · rw [List.find?_cons_of_neg (p := fun (y : Booking) => y.id == bookingId) _ hx] at h
      have hhead : (if (x.id == bookingId) = true then g x else x) = x := by
        simp [hx]
      rw [List.map_cons, hhead,
        List.find?_cons_of_neg (p := fun (y : Booking) => y.id == bookingId) _ hx]
      exact ih h

/-- Store for the conflict counterexample: the booking was already moved
to code_sent by another actor. -/
def conflictStore : Store :=
  { bookings := [sampleBooking 1 .code_sent 100], sessions := [] }

/-- C1: the claim fails on the code.  A caller whose read status
(expectedCurrentStatus) is pending invokes target=confirmed while the
stored status is already code_sent; updateBookingStatus does not fail
with a conflict — it has no conflict check — and rewrites the stored
booking anyway. -/
theorem C1_counterexample : ¬ claimConflictCheck := by
  intro h
  have hc := h conflictStore [] 1 .pending .confirmed none 5 true
    (sampleBooking 1 .code_sent 100) rfl (by decide)
  exact absurd hc.1 (by decide)

/-- C1 (amended): updateBookingStatus performs no compare-and-swap on the
stored status: every call succeeds whatever the stored status is, so of
two transition calls on the same booking both succeed and the second
simply overwrites the first (last writer wins), instead of exactly one
succeeding and the other failing with Conflict. -/
theorem C1_amended_no_conflict_check (st : Store) (view : List Booking)
    (bookingId : Nat) (t1 t2 : BookingStatus) (c1 c2 : Option String)
    (n1 n2 : Int) (w1 w2 : Bool) (b : Booking)
    (hb : findBooking st bookingId = some b) :
    (updateBookingStatus st view bookingId t1 c1 n1 w1).success = true ∧
    (updateBookingStatus (updateBookingStatus st view bookingId t1 c1 n1 w1).store
      view bookingId t2 c2 n2 w2).success = true ∧
    findBooking
      (updateBookingStatus (updateBookingStatus st view bookingId t1 c1 n1 w1).store
        view bookingId t2 c2 n2 w2).store bookingId =
      some (bookingPatch t2 c2 n2 (bookingPatch t1 c1 n1 b)) := by
  refine ⟨rfl, rfl, ?_⟩
  have h1 := find_map_patch st.bookings bookingId (bookingPatch t1 c1 n1)
    (fun _ => rfl) b hb
  have h2 := find_map_patch
    (st.bookings.map fun x => if x.id == bookingId then bookingPatch t1 c1 n1 x else x)
    bookingId (bookingPatch t2 c2 n2) (fun _ => rfl) _ h1
  exact h2

/-- Witness for the amended C1 at a concrete input: a pending booking is
moved twice, by a confirm call and then by a stale reject call; both
succeed and the reject overwrites the confirm. -/
theorem C1_amended_no_conflict_check_witness :
    (updateBookingStatus { bookings := [sampleBooking 1 .pending 100], sessions := [] }
      [] 1 .confirmed none 5 true).success = true ∧
    (updateBookingStatus
      (updateBookingStatus { bookings := [sampleBooking 1 .pending 100], sessions := [] }
        [] 1 .confirmed none 5 true).store [] 1 .rejected none 6 true).success = true ∧
    findBooking
      (updateBookingStatus
        (updateBookingStatus { bookings := [sampleBooking 1 .pending 100], sessions := [] }
          [] 1 .confirmed none 5 true).store [] 1 .rejected none 6 true).store 1 =
      some (bookingPatch .rejected none 6 (bookingPatch .confirmed none 5
        (sampleBooking 1 .pending 100))) :=
  C1_amended_no_conflict_check
    { bookings := [sampleBooking 1 .pending 100], sessions := [] } [] 1
    .confirmed .rejected none none 5 6 true true (sampleBooking 1 .pending 100) rfl

/-- C2: the claim fails on the code.  confirmed→pending is outside the
allowed transition set, yet updateBookingStatus applies it and the store
changes. -/
theorem C2_counterexample : ¬ claimTransitionValidated := by
  intro h
  have hc := h { bookings := [sampleBooking 1 .confirmed 100], sessions := [] }
    [] 1 .pending none 5 true (sampleBooking 1 .confirmed 100) rfl (by decide)
  exact absurd hc.1 (by decide)

/-- C2 (amended): updateBookingStatus validates nothing: even when
(storedStatus → targetStatus) is outside the allowed set of §4.1, the
call succeeds and the stored booking's status becomes the target. -/
theorem C2_amended_no_transition_validation (st : Store) (view : List Booking)
    (bookingId : Nat) (target : BookingStatus) (code : Option String)
    (now : Int) (webhookOk : Bool) (b : Booking)
    (hb : findBooking st bookingId = some b)
    (_hnotallowed : allowedTransition b.status target = false) :
    (updateBookingStatus st view bookingId target code now webhookOk).success = true ∧
    findBooking (updateBookingStatus st view bookingId target code now webhookOk).store
      bookingId = some (bookingPatch target code now b) ∧
    (bookingPatch target code now b).status = target := by
  exact ⟨rfl, find_map_patch st.bookings bookingId (bookingPatch target code now)
    (fun _ => rfl) b hb, rfl⟩

/-- Witness for the amended C2 at a concrete input: the disallowed
transition confirmed→pending is applied successfully. -/
theorem C2_amended_no_transition_validation_witness :
    allowedTransition .confirmed .pending = false ∧
    ((updateBookingStatus { bookings := [sampleBooking 1 .confirmed 100], sessions := [] }
      [] 1 .pending none 5 true).success = true ∧
    findBooking (updateBookingStatus
      { bookings := [sampleBooking 1 .confirmed 100], sessions := [] }
      [] 1 .pending none 5 true).store 1 =
      some (bookingPatch .pending none 5 (sampleBooking 1 .confirmed 100)) ∧
    (bookingPatch .pending none 5 (sampleBooking 1 .confirmed 100)).status = .pending) :=
  ⟨rfl, C2_amended_no_transition_validation
    { bookings := [sampleBooking 1 .confirmed 100], sessions := [] } [] 1
    .pending none 5 true (sampleBooking 1 .confirmed 100) rfl rfl⟩

/-- Store for the session race: one confirmed booking, no sessions yet. -/
def raceStore : Store :=
  { bookings := [sampleBooking 1 .confirmed 100], sessions := [] }

/-- C3: the claim fails on the code.  Two start calls racing on the same
fresh booking, with both existence checks reading the store before either
insert, do not resolve to one winner: both report success. -/
theorem C3_counterexample : ¬ claimAtomicStart := by
  intro h
  have hc := h raceStore raceStore.bookings 1 8 9 21 22 1000 1001 (by decide) rfl
  rcases hc with ⟨h1, h2⟩ | ⟨h1, h2⟩
  · exact absurd h2 (by decide)
  · exact absurd h1 (by decide)

/-- C3 (amended): session start is a separate existence check followed by
a separate insert, not an atomic conditional insert; in the interleaving
where both checks precede both inserts, both racing calls succeed and two
active sessions are recorded for the same booking, violating the
at-most-one-active invariant. -/
theorem C3_amended_toctou_double_start (st : Store) (view : List Booking)
    (bookingId a1 a2 s1 s2 : Nat) (n1 n2 : Int) (b : Booking)
    (hb : view.find? (fun x => x.id == bookingId) = some b)
    (hs : sessionLookup st bookingId = []) :
    (startRace st view bookingId a1 a2 s1 s2 n1 n2).2.1 = .started ∧
    (startRace st view bookingId a1 a2 s1 s2 n1 n2).2.2 = .started ∧
    countActiveSessions (startRace st view bookingId a1 a2 s1 s2 n1 n2).1
      bookingId = 2 := by
  have hp : startProceeds st bookingId = true := by
    unfold startProceeds
    rw [hs]
  have h0 : st.sessions.filter
      (fun s => s.booking_id == some bookingId && s.status == SessionStatus.active)
        = [] := by
    rw [List.filter_eq_nil_iff]
    intro s hsmem
    unfold sessionLookup at hs
    have h1 := List.filter_eq_nil_iff.mp hs s hsmem
    simp at h1 ⊢
    intro hcontra
    exact absurd hcontra h1
  refine ⟨?_, ?_, ?_⟩
  · simp [startRace, hb, hp]
  · simp [startRace, hb, hp]
  · simp [startRace, hb, hp, countActiveSessions, List.filter_append, h0,
      newSessionRecord]

/-- Witness for the amended C3 at a concrete input: both racing starts on
booking 1 report started and the store ends with two active sessions. -/
theorem C3_amended_toctou_double_start_witness :
    (startRace raceStore raceStore.bookings 1 8 9 21 22 1000 1001).2.1 = .started ∧
    (startRace raceStore raceStore.bookings 1 8 9 21 22 1000 1001).2.2 = .started ∧
    countActiveSessions (startRace raceStore raceStore.bookings 1 8 9 21 22 1000 1001).1
      1 = 2 :=
  C3_amended_toctou_double_start raceStore raceStore.bookings 1 8 9 21 22 1000 1001
    (sampleBooking 1 .confirmed 100) rfl rfl

/-- C6: the confirmed-status half of the claim fails on the code.
startBookingSession performs no booking-status check: a pending booking
is happily given a session instead of failing with NotFound. -/
theorem C6_counterexample : ¬ claimStartRequiresConfirmed := by
  intro h
  have hc := h { bookings := [sampleBooking 1 .pending 100], sessions := [] }
    [sampleBooking 1 .pending 100] 1 9 21 1000 (sampleBooking 1 .pending 100)
    rfl (by decide)
  exact absurd hc (by decide)

/-- C6 (amended): startBookingSession fails with AlreadyActive when the
existing-session query returns exactly one row for the booking and that
row is active, and fails with the Booking-not-found error when the
booking id is absent from the dashboard's local bookings list; in both
failure cases the store is unchanged (no session record is created).  No
booking-status check is performed. -/
theorem C6_amended_start_failure_modes :
    (∀ (st : Store) (view : List Booking) (bookingId adminId sessionId : Nat)
       (now : Int) (b : Booking) (s : Session),
       view.find? (fun x => x.id == bookingId) = some b →
       sessionLookup st bookingId = [s] →
       s.status = .active →
       startBookingSession st view bookingId adminId sessionId now =
         (st, .alreadyActive)) ∧
    (∀ (st : Store) (view : List Booking) (bookingId adminId sessionId : Nat)
       (now : Int),
       view.find? (fun x => x.id == bookingId) = none →
       startBookingSession st view bookingId adminId sessionId now =
         (st, .bookingNotFound)) := by
  constructor
  · intro st view bookingId adminId sessionId now b s hb hs hact
    have hp : startProceeds st bookingId = false := by
      unfold startProceeds
      rw [hs]
      simp [hact]
    simp [startBookingSession, hb, hp]
  · intro st view bookingId adminId sessionId now hb
    simp [startBookingSession, hb]

/-- Store with an active session already recorded for booking 1. -/
def stActive : Store :=
  { bookings := [sampleBooking 1 .confirmed 100], sessions := [sampleActiveSession] }

/-- Witness for the amended C6 at concrete inputs: a second start on a
booking with an active session fails with AlreadyActive, and a start with
an empty local bookings view fails with the not-found error; the store is
unchanged both times. -/
theorem C6_amended_start_failure_modes_witness :
    startBookingSession stActive [sampleBooking 1 .confirmed 100] 1 9 21 2000 =
      (stActive, .alreadyActive) ∧
    startBookingSession stActive [] 1 9 21 2000 = (stActive, .bookingNotFound) :=
  ⟨C6_amended_start_failure_modes.1 stActive [sampleBooking 1 .confirmed 100]
      1 9 21 2000 (sampleBooking 1 .confirmed 100) sampleActiveSession rfl rfl rfl,
    C6_amended_start_failure_modes.2 stActive [] 1 9 21 2000 rfl⟩

/-- C10: when the booking's user reference is null, the created session's
user_id silently falls back to the acting operator's id; the call is not
rejected for lacking a user. -/
theorem C10_null_user_fallback (st : Store) (view : List Booking)
    (bookingId adminId sessionId : Nat) (now : Int) (b : Booking)
    (hb : view.find? (fun x => x.id == bookingId) = some b)
    (hu : b.user_id = none)
    (hp : startProceeds st bookingId = true) :
    startBookingSession st view bookingId adminId sessionId now =
      ({ st with sessions :=
          st.sessions ++ [newSessionRecord b bookingId adminId sessionId now] },
        .started) ∧
    (newSessionRecord b bookingId adminId sessionId now).user_id = adminId := by
  refine ⟨?_, ?_⟩
  · simp [startBookingSession, hb, hp]
  · simp [newSessionRecord, hu]

/-- Witness for C10 at a concrete input: a booking with user_id null gets
a session attributed to operator 9. -/
theorem C10_null_user_fallback_witness :
    startBookingSession { bookings := [bookingNoUser], sessions := [] }
      [bookingNoUser] 1 9 21 1000 =
      ({ bookings := [bookingNoUser], sessions := [newSessionRecord bookingNoUser 1 9 21 1000] },
        .started) ∧
    (newSessionRecord bookingNoUser 1 9 21 1000).user_id = 9 :=
  C10_null_user_fallback { bookings := [bookingNoUser], sessions := [] }
    [bookingNoUser] 1 9 21 1000 bookingNoUser rfl rfl rfl

/-- A booking that already carries a confirmation code. -/
def bookingWithCode : Booking :=
  { sampleBooking 1 .code_sent 100 with confirmation_code := some "AB12CD" }

/-- C4: the immutability half of the claim fails on the code.  A repeated
code_sent update (issued by a stale operator view, which nothing
prevents) overwrites the already-set confirmation_code. -/
theorem C4_counterexample : ¬ claimCodeImmutable := by
  intro h
  have hc := h .code_sent (some "ZZ99ZZ") 6 bookingWithCode rfl
  exact absurd hc (by decide)

/-- Mapping the id-matching rows through the code-less patch leaves every
row's confirmation_code unchanged. -/
theorem map_code_of_patch_none (l : List Booking) (bookingId : Nat)
    (ns : BookingStatus) (now : Int) :
    ((l.map fun b => if b.id == bookingId then bookingPatch ns none now b else b).map
      fun b => b.confirmation_code) = l.map fun b => b.confirmation_code := by
  induction l with
  | nil => rfl
  | cons x xs ih =>
    simp only [List.map_cons, ih]
    by_cases hx : (x.id == bookingId) = true <;> simp [hx, bookingPatch]

/-- C4 (amended): calls that pass no confirmation code (the transitions to
confirmed, rejected or cancelled) never change any booking's
confirmation_code; but every call passing a non-empty code writes it
unconditionally, overwriting whatever code was already set, so the code
is not write-once. -/
theorem C4_amended_code_conditional_overwrite :
    (∀ (st : Store) (view : List Booking) (bookingId : Nat) (ns : BookingStatus)
       (now : Int) (w : Bool),
       ((updateBookingStatus st view bookingId ns none now w).store.bookings.map
         fun b => b.confirmation_code) =
         st.bookings.map fun b => b.confirmation_code) ∧
    (∀ (ns : BookingStatus) (now : Int) (c : String) (b : Booking), c ≠ "" →
       (bookingPatch ns (some c) now b).confirmation_code = some c) := by
  constructor
  · intro st view bookingId ns now w
    exact map_code_of_patch_none st.bookings bookingId ns now
  · intro ns now c b hc
    simp [bookingPatch, hc]

/-- Witness for the amended C4 at concrete inputs: a reject call preserves
the stored code, and a repeated send-code call overwrites it. -/
theorem C4_amended_code_conditional_overwrite_witness :
    ((updateBookingStatus conflictStore [] 1 .rejected none 7 true).store.bookings.map
      fun b => b.confirmation_code) =
      conflictStore.bookings.map (fun b => b.confirmation_code) ∧
    (bookingPatch .code_sent (some "ZZ99ZZ") 6 bookingWithCode).confirmation_code =
      some "ZZ99ZZ" :=
  ⟨C4_amended_code_conditional_overwrite.1 conflictStore [] 1 .rejected 7 true,
    C4_amended_code_conditional_overwrite.2 .code_sent 6 "ZZ99ZZ" bookingWithCode
      (by decide)⟩

/-- Store holding only the already-completed session for booking 1. -/
def stCompleted : Store :=
  { bookings := [sampleBooking 1 .confirmed 100], sessions := [sampleCompletedSession] }

/-- C5: the claim fails on the code.  A second end call on session 12,
already completed at end_time 61000, does not fail: the select has no
status filter and the update no status compare-and-swap, so the session
is re-ended with a fresh end_time and duration. -/
theorem C5_counterexample : ¬ claimEndEffectiveOnce := by
  intro h
  have hc := h stCompleted 12 9 300000 true sampleCompletedSession rfl (by decide)
  exact absurd hc.2 (by decide)

/-- C5 (amended): endBookingSession is unconditional on status: whenever
exactly one session row matches the id — active or already completed —
the call succeeds, recomputes the duration and rewrites end_time,
duration_minutes, ended_by and status; it fails only when no unique row
matches the id. -/
theorem C5_amended_end_unconditional (st : Store) (sessionId adminId : Nat)
    (endTime : Int) (w : Bool) (s : Session)
    (hfind : st.sessions.filter (fun x => x.id == sessionId) = [s]) :
    (endBookingSession st sessionId adminId endTime w).result =
      .ended (durationMinutesCalc s.start_time endTime) ∧
    (endBookingSession st sessionId adminId endTime w).store.sessions =
      st.sessions.map
        (fun x => if x.id == sessionId then endPatch adminId endTime x else x) ∧
    (endPatch adminId endTime s).status = .completed ∧
    (endPatch adminId endTime s).end_time = some endTime := by
  refine ⟨?_, ?_, rfl, rfl⟩ <;> simp [endBookingSession, hfind]

/-- Witness for the amended C5 at a concrete input: re-ending the already
completed session 12 succeeds and moves its end_time to 300000. -/
theorem C5_amended_end_unconditional_witness :
    (endBookingSession stCompleted 12 9 300000 true).result =
      .ended (durationMinutesCalc sampleCompletedSession.start_time 300000) ∧
    (endBookingSession stCompleted 12 9 300000 true).store.sessions =
      stCompleted.sessions.map
        (fun x => if x.id == 12 then endPatch 9 300000 x else x) ∧
    (endPatch 9 300000 sampleCompletedSession).status = .completed ∧
    (endPatch 9 300000 sampleCompletedSession).end_time = some 300000 :=
  C5_amended_end_unconditional stCompleted 12 9 300000 true
    sampleCompletedSession rfl

/-- C7: duration_minutes is the ceiling of the elapsed milliseconds in
whole minutes; for a start at T and a commit at T + 125 seconds it is 3. -/
theorem C7_duration_ceiling :
    (∀ s e : ℤ, durationMinutesCalc s e = ⌈(((e - s : ℤ) : ℚ)) / (60000 : ℚ)⌉) ∧
    (∀ T : ℤ, durationMinutesCalc T (T + 125000) = 3) := by
  constructor
  · intro s e
    have h60 : (0:ℚ) < 60000 := by norm_num
    have hz1 : (durationMinutesCalc s e - 1) * 60000 < e - s := by
      unfold durationMinutesCalc
      omega
    have hz2 : e - s ≤ durationMinutesCalc s e * 60000 := by
      unfold durationMinutesCalc
      omega
    rw [eq_comm, Int.ceil_eq_iff]
    constructor
    · rw [lt_div_iff₀ h60]
      exact_mod_cast hz1
    · rw [div_le_iff₀ h60]
      exact_mod_cast hz2
  · intro T
    unfold durationMinutesCalc
    omega

/-- C8: the claim fails on the src/unnamed/part_000 aggregation: on the
example snapshot its totalRevenue is 650, not the confirmed-only 600. -/
theorem C8_counterexample : ¬ claimRevenueConfirmedOnly := by
  intro h
  exact absurd (h exampleBookings) (by decide)

/-- C8 (amended): the AdminDashboard.tsx aggregation computes exactly the
confirmed-only revenue (600 on the example snapshot, with 3 confirmed and
1 pending); the src/unnamed/part_000 aggregation instead sums total_price
over all bookings regardless of status — confirmed revenue plus every
non-confirmed booking's price — giving 650 on the same snapshot. -/
theorem C8_amended_revenue :
    (∀ bs : List Booking, totalRevenueDashboard bs = specConfirmedRevenue bs) ∧
    (∀ bs : List Booking,
       totalRevenueUnnamedVariant bs =
         specConfirmedRevenue bs + nonConfirmedRevenue bs) ∧
    totalRevenueDashboard exampleBookings = 600 ∧
    totalRevenueUnnamedVariant exampleBookings = 650 ∧
    confirmedBookingsCount exampleBookings = 3 ∧
    pendingBookingsCount exampleBookings = 1 := by
  refine ⟨?_, ?_, by decide, by decide, by decide, by decide⟩
  · intro bs
    unfold totalRevenueDashboard specConfirmedRevenue
    rw [foldl_price_eq_sum]
    ring
  · intro bs
    unfold totalRevenueUnnamedVariant
    rw [foldl_price_eq_sum, price_sum_split]
    ring

/-- C9: a webhook dispatch failure after the committed mutation is
absorbed by the inner try/catch: it changes neither the resulting store
nor the success/result of updateBookingStatus or endBookingSession (only
the logged-error flag can differ). -/
theorem C9_webhook_failure_absorbed :
    (∀ (st : Store) (view : List Booking) (bookingId : Nat) (ns : BookingStatus)
       (code : Option String) (now : Int),
       (updateBookingStatus st view bookingId ns code now false).store =
         (updateBookingStatus st view bookingId ns code now true).store ∧
       (updateBookingStatus st view bookingId ns code now false).success =
         (updateBookingStatus st view bookingId ns code now true).success) ∧
    (∀ (st : Store) (sessionId adminId : Nat) (endTime : Int),
       (endBookingSession st sessionId adminId endTime false).store =
         (endBookingSession st sessionId adminId endTime true).store ∧
       (endBookingSession st sessionId adminId endTime false).result =
         (endBookingSession st sessionId adminId endTime true).result) := by
  constructor
  · intro st view bookingId ns code now
    exact ⟨rfl, rfl⟩
  · intro st sessionId adminId endTime
    cases hf : st.sessions.filter (fun x => x.id == sessionId) with
    | nil => simp [endBookingSession, hf]
    | cons s tail =>
      cases tail with
      | nil => simp [endBookingSession, hf]
      | cons s2 rest => simp [endBookingSession, hf]
